import Mathlib

/-!
Verification of the diwrappers dependency-injection library.

The development shallowly embeds the four injector variants of the
repository:

- the plain injector of src/diwrappers/_dependency.py
  (Injector, dependency, inject, fake_value, faker),
- the contextual injector of src/diwrappers/_contextual_dependency.py
  (ContextualInjector, ensure, inject, contains_value, MAX_DEPTH),
- the configurable injector of src/diwrappers/_configurable_dependency.py
  (ConfigurableInjector, configurable_dependency, inject),
- the default-argument based injector of src/pyinject/main.py
  (dep, inject, runtime_cast, TypeConversionError).

Python values reachable by the leak-detection search are embedded as the
inductive type PyVal.  Effectful nullary Python callables are embedded as
state transformers over an abstract state type, so that constructing a
dependency anew on every call is observable.  Python functions that may
raise are embedded as functions into Except PyExc.
-/

/-- Universe of Python values inspected by the leak-detection search of
src/diwrappers/_contextual_dependency.py: ints, strings, bools, None,
tuples, lists, dicts, and objects carrying a __dict__ attribute table. -/
inductive PyVal where
  | pyInt (n : Int)
  | pyStr (s : String)
  | pyBool (b : Bool)
  | pyNone
  | pyTuple (items : List PyVal)
  | pyList (items : List PyVal)
  | pyDict (entries : List (PyVal × PyVal))
  | pyObj (attrs : List (PyVal × PyVal))

mutual

/-- Structural equality of embedded Python values, modelling the Python
equality operator on the value forms of PyVal. -/
def pyEq : PyVal → PyVal → Bool
  | .pyInt a, .pyInt b => a == b
  | .pyStr a, .pyStr b => a == b
  | .pyBool a, .pyBool b => a == b
  | .pyNone, .pyNone => true
  | .pyTuple a, .pyTuple b => pyEqList a b
  | .pyList a, .pyList b => pyEqList a b
  | .pyDict a, .pyDict b => pyEqEntries a b
  | .pyObj a, .pyObj b => pyEqEntries a b
  | _, _ => false

/-- Pointwise equality of Python value sequences. -/
def pyEqList : List PyVal → List PyVal → Bool
  | [], [] => true
  | a :: as, b :: bs => pyEq a b && pyEqList as bs
  | _, _ => false

/-- Pointwise equality of Python key-value entry sequences. -/
def pyEqEntries : List (PyVal × PyVal) → List (PyVal × PyVal) → Bool
  | [], [] => true
  | (k1, v1) :: as, (k2, v2) :: bs => (pyEq k1 k2 && pyEq v1 v2) && pyEqEntries as bs
  | _, _ => false

end

/-- The isinstance check on (int, str, bool) performed by contains_value
in src/diwrappers/_contextual_dependency.py line 64. -/
def isPrimitive : PyVal → Bool
  | .pyInt _ => true
  | .pyStr _ => true
  | .pyBool _ => true
  | _ => false

/-- MAX_DEPTH from src/diwrappers/_contextual_dependency.py line 8. -/
def MAX_DEPTH : Nat := 5

mutual

/-- Size measure of a Python value, used only to establish termination of
the embedded contains_value.  Objects weigh one more than the dict of
their attributes, because the source forwards an object to a recursive
call on vars of the object. -/
def pySize : PyVal → Nat
  | .pyInt _ => 1
  | .pyStr _ => 1
  | .pyBool _ => 1
  | .pyNone => 1
  | .pyTuple items => 2 + pySizeList items
  | .pyList items => 2 + pySizeList items
  | .pyDict entries => 2 + pySizeEntries entries
  | .pyObj attrs => 3 + pySizeEntries attrs

/-- Size measure of a sequence of Python values. -/
def pySizeList : List PyVal → Nat
  | [] => 0
  | x :: xs => 1 + pySize x + pySizeList xs

/-- Size measure of a sequence of Python key-value entries. -/
def pySizeEntries : List (PyVal × PyVal) → Nat
  | [] => 0
  | (k, v) :: xs => 1 + pySize k + pySize v + pySizeEntries xs

end

mutual

/-- Embedding of contains_value from
src/diwrappers/_contextual_dependency.py lines 25 to 81: a bounded-depth
structural search for needle inside haystack.  Equality stops the search
with a positive answer; primitives and a depth counter equal to MAX_DEPTH
stop it with a negative answer; otherwise the counter is incremented and
the search descends into tuple or list items, dict keys and values, or
the attribute dict of an object. -/
def contains_value (needle haystack : PyVal) (depth : Nat) : Bool :=
  if pyEq needle haystack then true
  else if isPrimitive haystack || depth == MAX_DEPTH then false
  else match haystack with
    | .pyTuple items => containsInSeq needle items (depth + 1)
    | .pyList items => containsInSeq needle items (depth + 1)
    | .pyDict entries => containsInEntries needle entries (depth + 1)
    | .pyObj attrs => contains_value needle (.pyDict attrs) (depth + 1)
    | _ => false
termination_by pySize haystack
decreasing_by
all_goals simp only [pySize, pySizeList, pySizeEntries]
all_goals omega

/-- The any-generator over tuple or list items at line 70 of
src/diwrappers/_contextual_dependency.py. -/
def containsInSeq (needle : PyVal) (items : List PyVal) (depth : Nat) : Bool :=
  match items with
  | [] => false
  | item :: rest => contains_value needle item depth || containsInSeq needle rest depth
termination_by 1 + pySizeList items
decreasing_by
all_goals simp only [pySize, pySizeList, pySizeEntries]
all_goals omega

/-- The any-generator over dict keys and values at lines 73 to 76 of
src/diwrappers/_contextual_dependency.py. -/
def containsInEntries (needle : PyVal) (entries : List (PyVal × PyVal)) (depth : Nat) : Bool :=
  match entries with
  | [] => false
  | (k, v) :: rest =>
      (contains_value needle k depth || contains_value needle v depth)
        || containsInEntries needle rest depth
termination_by 1 + pySizeEntries entries
decreasing_by
all_goals simp only [pySize, pySizeList, pySizeEntries]
all_goals omega

end

/-- Exceptions raised by the embedded code: RuntimeError with an optional
message, and an arbitrary user exception propagating out of a wrapped
body. -/
inductive PyExc where
  | runtimeError (msg : Option String)
  | userError (msg : String)

/-- Embedding of the ContextualInjector dataclass of
src/diwrappers/_contextual_dependency.py: a constructor producing the
dependency value, and the transient current-value slot _data. -/
structure ContextualInjector where
  _constructor : Unit → PyVal
  _data : Option PyVal

/-- Embedding of one call of a function wrapped by ContextualInjector.ensure,
lines 158 to 167 of src/diwrappers/_contextual_dependency.py.  The body fn
receives the call arguments and the injector, because functions wrapped by
inject inside the body read the _data slot.  The constructed value is
stored in _data, the body runs, a detected leak raises RuntimeError, and
only on the leak-free path is _data reset to none: the source has no
try-finally around the body. -/
def ContextualInjector.ensure {Args : Type} (inj : ContextualInjector)
    (fn : Args → ContextualInjector → Except PyExc PyVal) (args : Args) :
    Except PyExc PyVal × ContextualInjector :=
  let data := inj._constructor ()
  let inj1 : ContextualInjector := { inj with _data := some data }
  match fn args inj1 with
  | .error e => (.error e, inj1)
  | .ok res =>
      if contains_value data res 1 then (.error (.runtimeError none), inj1)
      else (.ok res, { inj1 with _data := none })

/-- Embedding of one call of a function wrapped by ContextualInjector.inject,
lines 169 to 182 of src/diwrappers/_contextual_dependency.py: an empty
_data slot raises RuntimeError with the message found at line 177, and an
occupied slot forwards its value as the leading argument of the task. -/
def ContextualInjector.inject {Args : Type} (inj : ContextualInjector)
    (task : PyVal → Args → Except PyExc PyVal) (args : Args) :
    Except PyExc PyVal :=
  match inj._data with
  | none => .error (.runtimeError (some "Please use ensure."))
  | some data => task data args

/-- Embedding of the contextual_dependency factory at line 185 of
src/diwrappers/_contextual_dependency.py.  The Python dataclass default
initialises the _data slot to None. -/
def contextual_dependency (func : Unit → PyVal) : ContextualInjector :=
  ⟨func, none⟩

/-- Embedding of the Injector dataclass of src/diwrappers/_dependency.py.
The stored nullary Python callable is effectful, so it is embedded as a
state transformer over an abstract state type. -/
structure Injector (σ Data : Type) where
  _constructor : σ → Data × σ

/-- Embedding of the dependency factory, lines 164 to 202 of
src/diwrappers/_dependency.py. -/
def dependency {σ Data : Type} (func : σ → Data × σ) : Injector σ Data :=
  ⟨func⟩

/-- Embedding of one call of a function wrapped by Injector.inject, lines
118 to 162 of src/diwrappers/_dependency.py: the constructor runs against
the state current at call time and its result is forwarded as the leading
argument of the task, whose result is returned. -/
def Injector.inject {σ Data Args Ret : Type} (inj : Injector σ Data)
    (task : Data → Args → Ret) : Args → σ → Ret × σ :=
  fun args s =>
    let p := inj._constructor s
    (task p.1 args, p.2)

/-- Embedding of one use of the Injector.fake_value context manager,
lines 42 to 73 of src/diwrappers/_dependency.py: the current constructor
is saved, replaced by a constant function returning val, the body runs
with val as the yielded value and may itself further mutate the injector
or raise, and the finally block restores the saved constructor. -/
def Injector.fake_value {σ Data β : Type} (inj : Injector σ Data) (val : Data)
    (body : Data → Injector σ Data → Except PyExc β × Injector σ Data) :
    Except PyExc β × Injector σ Data :=
  let tmp_constructor := inj._constructor
  let inj1 : Injector σ Data := { inj with _constructor := fun s => (val, s) }
  let r := body val inj1
  (r.1, { r.2 with _constructor := tmp_constructor })

/-- Embedding of one use of the context manager produced by
Injector.faker, lines 76 to 115 of src/diwrappers/_dependency.py: the
current constructor is saved, replaced by the fake constructor, the body
runs and may itself further mutate the injector or raise, and the finally
block restores the saved constructor. -/
def Injector.faker {σ Data β : Type} (inj : Injector σ Data)
    (fake_constructor : σ → Data × σ)
    (body : Injector σ Data → Except PyExc β × Injector σ Data) :
    Except PyExc β × Injector σ Data :=
  let tmp_constructor := inj._constructor
  let inj1 : Injector σ Data := { inj with _constructor := fake_constructor }
  let r := body inj1
  (r.1, { r.2 with _constructor := tmp_constructor })

/-- Embedding of the ConfigurableInjector dataclass of
src/diwrappers/_configurable_dependency.py: the stored constructor takes
the configuration arguments of inject. -/
structure ConfigurableInjector (Cfg σ Data : Type) where
  _constructor : Cfg → σ → Data × σ

/-- Embedding of the configurable_dependency factory, lines 117 to 127 of
src/diwrappers/_configurable_dependency.py. -/
def configurable_dependency {Cfg σ Data : Type} (func : Cfg → σ → Data × σ) :
    ConfigurableInjector Cfg σ Data :=
  ⟨func⟩

/-- Embedding of one call of a function wrapped by the decorator returned
by ConfigurableInjector.inject, lines 81 to 114 of
src/diwrappers/_configurable_dependency.py: the stored constructor is
applied to the configuration arguments captured by inject, against the
state current at call time, and its result is forwarded as the leading
argument of the task. -/
def ConfigurableInjector.inject {Cfg σ Data Args Ret : Type}
    (inj : ConfigurableInjector Cfg σ Data) (cfg : Cfg)
    (task : Data → Args → Ret) : Args → σ → Ret × σ :=
  fun task_args s =>
    let p := inj._constructor cfg s
    (task p.1 task_args, p.2)

namespace Pyinject

/-- Default value of a parameter of an inject-wrapped function in
src/pyinject/main.py: absent, a plain value, or an injector produced by
dep, embedded as the nullary callable giving the raw dependency value. -/
inductive ParamDefault where
  | emptyDefault
  | plain (v : PyVal)
  | injectorDefault (c : Unit → PyVal)

/-- Embedding of the is_injector test of src/pyinject/main.py lines 36
to 37, applied to a parameter default. -/
def is_injector : ParamDefault → Bool
  | .injectorDefault _ => true
  | _ => false

/-- One entry of inspect.signature(func).parameters together with the
type hint that t.get_type_hints(func).get(name) would return for it,
abstract over the type of type annotations. -/
structure Param (τ : Type) where
  name : String
  hint : Option τ
  default : ParamDefault

/-- Embedding of TypeConversionError of src/pyinject/main.py lines 49
to 75, carrying the expected type, the raw value, the parameter name and
the optional message of the last validation error. -/
structure TypeConversionError (τ : Type) where
  expected_type : τ
  raw_value : PyVal
  param_name : String
  err_msg : Option String

/-- Embedding of runtime_cast of src/pyinject/main.py lines 81 to 111.
Pydantic is outside the repository, so validation is abstract: validate
returns either the converted value or the list of validation error
messages, of which the source keeps the last one. -/
def runtime_cast {τ : Type} (validate : τ → PyVal → Except (List String) PyVal)
    (val : PyVal) (to_type : τ) (name : String) :
    Except (TypeConversionError τ) PyVal :=
  match validate to_type val with
  | .ok v => .ok v
  | .error errs => .error ⟨to_type, val, name, errs.getLast?⟩

/-- The Python membership test name in kwargs, on kwargs embedded as an
association list. -/
def hasKey (kwargs : List (String × PyVal)) (name : String) : Bool :=
  kwargs.any (fun kv => kv.1 == name)

/-- Lookup of a keyword argument by name, returning the first binding. -/
def lookupKw (kwargs : List (String × PyVal)) (name : String) : Option PyVal :=
  (kwargs.find? (fun kv => kv.1 == name)).map (fun kv => kv.2)

/-- Embedding of the for-loop of the wrapper inside inject,
src/pyinject/main.py lines 150 to 179: parameters already supplied as
keyword arguments or without an injector default are skipped; otherwise
the injector is invoked, and the raw value is stored directly when the
parameter has no type hint, or after runtime_cast when it has one.  A
failed conversion aborts the call with the error. -/
def injectLoop {τ : Type} (validate : τ → PyVal → Except (List String) PyVal) :
    List (Param τ) → List (String × PyVal) →
    Except (TypeConversionError τ) (List (String × PyVal))
  | [], kwargs => .ok kwargs
  | p :: rest, kwargs =>
    if hasKey kwargs p.name || !(is_injector p.default) then
      injectLoop validate rest kwargs
    else match p.default with
      | .injectorDefault c =>
          let raw_value := c ()
          match p.hint with
          | none => injectLoop validate rest (kwargs ++ [(p.name, raw_value)])
          | some expected_type =>
              match runtime_cast validate raw_value expected_type p.name with
              | .ok v => injectLoop validate rest (kwargs ++ [(p.name, v)])
              | .error e => .error e
      | _ => injectLoop validate rest kwargs

/-- Embedding of one call of a function wrapped by inject,
src/pyinject/main.py lines 142 to 183: the loop resolves injector-backed
parameters into the keyword arguments and the function is then called
with the positional arguments and the completed keyword arguments. -/
def inject {τ R : Type} (validate : τ → PyVal → Except (List String) PyVal)
    (func : List PyVal → List (String × PyVal) → R) (params : List (Param τ))
    (args : List PyVal) (kwargs : List (String × PyVal)) :
    Except (TypeConversionError τ) R :=
  match injectLoop validate params kwargs with
  | .ok kw => .ok (func args kw)
  | .error e => .error e

end Pyinject

/-- C1: for the plain injector, a call of an inject-wrapped task applies
the stored constructor anew against the state current at call time,
forwards the freshly constructed dependency as the leading argument, and
returns the result of the task unchanged, together with the state left by
the constructor. -/
theorem inject_fresh_construction {σ Data Args Ret : Type}
    (c : σ → Data × σ) (task : Data → Args → Ret) (args : Args) (s : σ) :
    (dependency c).inject task args s = (task (c s).1 args, (c s).2) := rfl

/-- C4: entering fake_value replaces the stored constructor by a constant
function returning the given value, which is also yielded to the body,
and entering faker replaces it by the fake constructor; on exit the
injector is restored to exactly its state before entry, whether the body
finished normally or with an exception, and however the body mutated the
injector, so enter-then-exit is the identity on the injector state. -/
theorem fake_value_faker_restore {σ Data β : Type} (inj : Injector σ Data)
    (val : Data)
    (body : Data → Injector σ Data → Except PyExc β × Injector σ Data)
    (fake_constructor : σ → Data × σ)
    (body2 : Injector σ Data → Except PyExc β × Injector σ Data) :
    inj.fake_value val body = ((body val ⟨fun s => (val, s)⟩).1, inj)
      ∧ inj.faker fake_constructor body2 = ((body2 ⟨fake_constructor⟩).1, inj) :=
  ⟨rfl, rfl⟩

/-- C8: for the configurable injector, a call of the wrapped task invokes
the stored constructor with exactly the configuration arguments captured
by inject, against the state current at call time, and returns the task
applied to the constructed dependency and the call arguments. -/
theorem configurable_inject_forwards_config {Cfg σ Data Args Ret : Type}
    (c : Cfg → σ → Data × σ) (cfg : Cfg) (task : Data → Args → Ret)
    (task_args : Args) (s : σ) :
    (configurable_dependency c).inject cfg task task_args s
      = (task (c cfg s).1 task_args, (c cfg s).2) := rfl

/-- C5: the bounded-depth search is total by construction, and once the
depth counter reaches MAX_DEPTH it returns the result of the equality
test alone, so false unless the needle equals the node; below MAX_DEPTH
a structural descent into list items or into the attribute dict of an
object increments the counter by one. -/
theorem contains_value_depth_bound :
    (∀ needle haystack,
        contains_value needle haystack MAX_DEPTH = pyEq needle haystack)
    ∧ (∀ needle items d,
        contains_value needle (.pyList items) d =
          if pyEq needle (.pyList items) then true
          else if d == MAX_DEPTH then false
          else containsInSeq needle items (d + 1))
    ∧ (∀ needle attrs d,
        contains_value needle (.pyObj attrs) d =
          if pyEq needle (.pyObj attrs) then true
          else if d == MAX_DEPTH then false
          else contains_value needle (.pyDict attrs) (d + 1)) := by
  refine ⟨fun n h => ?_, fun n items d => ?_, fun n attrs d => ?_⟩
  · conv_lhs => rw [contains_value.eq_def]
    cases hq : pyEq n h <;> simp [hq, MAX_DEPTH]
  · conv_lhs => rw [contains_value.eq_def]
    cases hq : pyEq n (.pyList items) <;> simp [hq, isPrimitive]
  · conv_lhs => rw [contains_value.eq_def]
    cases hq : pyEq n (.pyObj attrs) <;> simp [hq, isPrimitive]

/-- C9: the leak check is incomplete at depth: the integer 42 is found
when buried under four list layers but missed under five, and an
ensure-wrapped body whose dependency is 42 may return the five-layer
nesting unchanged, without any RuntimeError. -/
theorem contains_value_depth_leak :
    contains_value (.pyInt 42)
        (.pyList [.pyList [.pyList [.pyList [.pyInt 42]]]]) 1 = true
    ∧ contains_value (.pyInt 42)
        (.pyList [.pyList [.pyList [.pyList [.pyList [.pyInt 42]]]]]) 1 = false
    ∧ ((contextual_dependency (fun _ => .pyInt 42)).ensure
          (fun (_ : Unit) _ =>
            .ok (.pyList [.pyList [.pyList [.pyList [.pyList [.pyInt 42]]]]])) ()).1
        = .ok (.pyList [.pyList [.pyList [.pyList [.pyList [.pyInt 42]]]]]) := by
  refine ⟨?_, ?_, ?_⟩ <;>
    simp [contextual_dependency, ContextualInjector.ensure, contains_value,
      containsInSeq, containsInEntries, pyEq, pyEqList, isPrimitive, MAX_DEPTH]

/-- C2: calling an inject-wrapped function while the current-value slot
is empty raises RuntimeError with the message Please use ensure. and the
task is never consulted, so any two tasks give the same outcome; when the
slot holds a value the task receives it as its leading argument; and
inside an ensure scope an inject-wrapped call succeeds with the task
applied to the freshly constructed dependency. -/
theorem contextual_inject_requires_ensure :
    (∀ (Args : Type) (inj : ContextualInjector)
        (task task2 : PyVal → Args → Except PyExc PyVal) (args : Args),
        inj._data = none →
          inj.inject task args = .error (.runtimeError (some "Please use ensure."))
          ∧ inj.inject task args = inj.inject task2 args)
    ∧ (∀ (Args : Type) (inj : ContextualInjector)
        (task : PyVal → Args → Except PyExc PyVal) (args : Args) (d : PyVal),
        inj._data = some d → inj.inject task args = task d args)
    ∧ (∀ (Args : Type) (inj : ContextualInjector)
        (task : PyVal → Args → Except PyExc PyVal) (args : Args) (res : PyVal),
        task (inj._constructor ()) args = .ok res →
        contains_value (inj._constructor ()) res 1 = false →
        (inj.ensure (fun a i => i.inject task a) args).1 = .ok res) := by
  refine ⟨?_, ?_, ?_⟩
  · intro Args inj task task2 args h
    constructor <;> simp [ContextualInjector.inject, h]
  · intro Args inj task args d h
    simp [ContextualInjector.inject, h]
  · intro Args inj task args res hok hnc
    simp [ContextualInjector.ensure, ContextualInjector.inject, hok, hnc]

/-- Witness for C2 at concrete inputs: an injector with empty slot, one
with an occupied slot, and an ensure scope around an inject-wrapped
call. -/
theorem contextual_inject_requires_ensure_witness :
    ((⟨fun _ => .pyInt 7, none⟩ : ContextualInjector).inject
        (fun d (_ : Unit) => .ok d) ()
      = .error (.runtimeError (some "Please use ensure.")))
    ∧ ((⟨fun _ => .pyInt 7, some (.pyInt 3)⟩ : ContextualInjector).inject
        (fun d (_ : Unit) => .ok d) () = .ok (.pyInt 3))
    ∧ (((⟨fun _ => .pyInt 7, none⟩ : ContextualInjector).ensure
        (fun (a : Unit) i => i.inject (fun _ _ => .ok .pyNone) a) ()).1
      = .ok .pyNone) :=
  ⟨(contextual_inject_requires_ensure.1 Unit ⟨fun _ => .pyInt 7, none⟩
      (fun d _ => .ok d) (fun d _ => .ok d) () rfl).1,
   contextual_inject_requires_ensure.2.1 Unit ⟨fun _ => .pyInt 7, some (.pyInt 3)⟩
      (fun d _ => .ok d) () (.pyInt 3) rfl,
   contextual_inject_requires_ensure.2.2 Unit ⟨fun _ => .pyInt 7, none⟩
      (fun _ _ => .ok .pyNone) () .pyNone rfl
      (by simp [contains_value, pyEq, isPrimitive, MAX_DEPTH])⟩

/-- C3: when the body of an ensure scope returns a result in which the
bounded-depth search finds the constructed dependency, the wrapper raises
RuntimeError instead of returning the result; when the search does not
find it, the result is returned unchanged and the slot is cleared. -/
theorem ensure_leak_check :
    ∀ (Args : Type) (inj : ContextualInjector)
      (fn : Args → ContextualInjector → Except PyExc PyVal) (args : Args)
      (res : PyVal),
      fn args { inj with _data := some (inj._constructor ()) } = .ok res →
      (contains_value (inj._constructor ()) res 1 = true →
        inj.ensure fn args
          = (.error (.runtimeError none),
             { inj with _data := some (inj._constructor ()) }))
      ∧ (contains_value (inj._constructor ()) res 1 = false →
        inj.ensure fn args = (.ok res, { inj with _data := none })) := by
  intro Args inj fn args res hok
  constructor <;> intro hc <;> simp [ContextualInjector.ensure, hok, hc]

/-- Witness for C3 at concrete inputs: a body returning the dependency
itself triggers the RuntimeError, a body returning None does not. -/
theorem ensure_leak_check_witness :
    ((⟨fun _ => .pyInt 7, none⟩ : ContextualInjector).ensure
        (fun (_ : Unit) _ => .ok (.pyInt 7)) ()
      = (.error (.runtimeError none), ⟨fun _ => .pyInt 7, some (.pyInt 7)⟩))
    ∧ ((⟨fun _ => .pyInt 7, none⟩ : ContextualInjector).ensure
        (fun (_ : Unit) _ => .ok .pyNone) ()
      = (.ok .pyNone, ⟨fun _ => .pyInt 7, none⟩)) :=
  ⟨(ensure_leak_check Unit ⟨fun _ => .pyInt 7, none⟩
      (fun _ _ => .ok (.pyInt 7)) () (.pyInt 7) rfl).1
      (by simp [contains_value, pyEq]),
   (ensure_leak_check Unit ⟨fun _ => .pyInt 7, none⟩
      (fun _ _ => .ok .pyNone) () .pyNone rfl).2
      (by simp [contains_value, pyEq, isPrimitive, MAX_DEPTH])⟩

/-- C7 counterexample: when the body of an ensure scope raises, the
current-value slot is not cleared, because the source resets it only on
the leak-free return path and has no try-finally; after the call the slot
still holds the constructed value. -/
theorem ensure_data_retained_on_exception :
    ((contextual_dependency (fun _ => .pyInt 7)).ensure
        (fun (_ : Unit) _ => .error (.userError "boom")) ()).2._data
      = some (.pyInt 7)
    ∧ ((contextual_dependency (fun _ => .pyInt 7)).ensure
        (fun (_ : Unit) _ => .error (.userError "boom")) ()).2._data
      ≠ none := by
  refine ⟨?_, ?_⟩ <;> simp [contextual_dependency, ContextualInjector.ensure]

/-- C7 amended: the current-value slot is cleared when a call of an
ensure-wrapped function returns normally and no leak is detected; when
the body raises, the slot keeps the constructed dependency. -/
theorem ensure_data_lifecycle :
    (∀ (Args : Type) (inj : ContextualInjector)
        (fn : Args → ContextualInjector → Except PyExc PyVal) (args : Args)
        (res : PyVal),
        fn args { inj with _data := some (inj._constructor ()) } = .ok res →
        contains_value (inj._constructor ()) res 1 = false →
        (inj.ensure fn args).2._data = none)
    ∧ (∀ (Args : Type) (inj : ContextualInjector)
        (fn : Args → ContextualInjector → Except PyExc PyVal) (args : Args)
        (e : PyExc),
        fn args { inj with _data := some (inj._constructor ()) } = .error e →
        (inj.ensure fn args).2._data = some (inj._constructor ())) := by
  constructor
  · intro Args inj fn args res hok hnc
    simp [ContextualInjector.ensure, hok, hnc]
  · intro Args inj fn args e herr
    simp [ContextualInjector.ensure, herr]

/-- Witness for the amended C7 at concrete inputs: a clean body clears
the slot, a raising body leaves the constructed value in it. -/
theorem ensure_data_lifecycle_witness :
    (((⟨fun _ => .pyInt 7, none⟩ : ContextualInjector).ensure
        (fun (_ : Unit) _ => .ok .pyNone) ()).2._data = none)
    ∧ (((⟨fun _ => .pyInt 7, none⟩ : ContextualInjector).ensure
        (fun (_ : Unit) _ => .error (.userError "boom")) ()).2._data
      = some (.pyInt 7)) :=
  ⟨ensure_data_lifecycle.1 Unit ⟨fun _ => .pyInt 7, none⟩
      (fun _ _ => .ok .pyNone) () .pyNone rfl
      (by simp [contains_value, pyEq, isPrimitive, MAX_DEPTH]),
   ensure_data_lifecycle.2 Unit ⟨fun _ => .pyInt 7, none⟩
      (fun _ _ => .error (.userError "boom")) () (.userError "boom") rfl⟩

/-- A keyword-argument key present in kwargs is still present after
appending further bindings. -/
theorem hasKey_append_right {kw l : List (String × PyVal)} {name : String}
    (h : Pyinject.hasKey kw name = true) :
    Pyinject.hasKey (kw ++ l) name = true := by
  simp only [Pyinject.hasKey] at h ⊢
  rw [List.any_append, h, Bool.true_or]

/-- Appending further bindings does not change the binding found for a
key already present in kwargs. -/
theorem lookupKw_append_right {kw l : List (String × PyVal)} {name : String}
    (h : Pyinject.hasKey kw name = true) :
    Pyinject.lookupKw (kw ++ l) name = Pyinject.lookupKw kw name := by
  unfold Pyinject.lookupKw
  rw [List.find?_append]
  have hs : (kw.find? fun kv => kv.1 == name).isSome = true := by
    rw [List.find?_isSome]
    exact List.any_eq_true.mp h
  cases hf : kw.find? fun kv => kv.1 == name with
  | none => rw [hf] at hs; simp at hs
  | some x => simp [hf]

/-- The resolution loop of the pyinject wrapper only ever appends
bindings for parameters whose name is absent, so the binding of a key
already present in kwargs survives unchanged into the keyword arguments
the function finally receives. -/
theorem injectLoop_keeps_present_keys {τ : Type}
    (validate : τ → PyVal → Except (List String) PyVal) (name : String) :
    ∀ (params : List (Pyinject.Param τ)) (kwargs kw2 : List (String × PyVal)),
      Pyinject.hasKey kwargs name = true →
      Pyinject.injectLoop validate params kwargs = .ok kw2 →
      Pyinject.lookupKw kw2 name = Pyinject.lookupKw kwargs name := by
  intro params
  induction params with
  | nil =>
    intro kwargs kw2 hk h
    simp only [Pyinject.injectLoop, Except.ok.injEq] at h
    rw [← h]
  | cons p rest ih =>
    intro kwargs kw2 hk h
    simp only [Pyinject.injectLoop] at h
    by_cases hc : (Pyinject.hasKey kwargs p.name || !(Pyinject.is_injector p.default)) = true
    · rw [if_pos hc] at h
      exact ih kwargs kw2 hk h
    · rw [if_neg hc] at h
      cases hd : p.default with
      | emptyDefault =>
        simp only [hd] at h
        exact ih kwargs kw2 hk h
      | plain v =>
        simp only [hd] at h
        exact ih kwargs kw2 hk h
      | injectorDefault c =>
        simp only [hd] at h
        cases hh : p.hint with
        | none =>
          simp only [hh] at h
          have hk2 := hasKey_append_right (l := [(p.name, c ())]) hk
          rw [ih _ kw2 hk2 h, lookupKw_append_right hk]
        | some ty =>
          simp only [hh] at h
          cases hv : validate ty (c ()) with
          | ok v =>
            simp only [Pyinject.runtime_cast, hv] at h
            have hk2 := hasKey_append_right (l := [(p.name, v)]) hk
            rw [ih _ kw2 hk2 h, lookupKw_append_right hk]
          | error errs =>
            simp only [Pyinject.runtime_cast, hv] at h
            exact absurd h (by simp)

/-- C6: in the pyinject wrapper, a parameter whose default is an injector
and which carries a type hint receives the raw value produced by the
injector converted by validation: on success the converted value is bound
to the parameter name and passed through to the function, and on failure
the call aborts with TypeConversionError carrying the expected type, the
raw value and the parameter name. -/
theorem pyinject_type_coercion :
    ∀ (τ : Type) (validate : τ → PyVal → Except (List String) PyVal)
      (p : Pyinject.Param τ) (rest : List (Pyinject.Param τ))
      (kwargs : List (String × PyVal)) (c : Unit → PyVal) (ty : τ),
      p.default = .injectorDefault c → p.hint = some ty →
      Pyinject.hasKey kwargs p.name = false →
      (∀ v, validate ty (c ()) = .ok v →
          Pyinject.injectLoop validate (p :: rest) kwargs
            = Pyinject.injectLoop validate rest (kwargs ++ [(p.name, v)]))
      ∧ (∀ errs, validate ty (c ()) = .error errs →
          Pyinject.injectLoop validate (p :: rest) kwargs
            = .error ⟨ty, c (), p.name, errs.getLast?⟩)
      ∧ (∀ (R : Type) (func : List PyVal → List (String × PyVal) → R)
            (args : List PyVal) (v : PyVal), validate ty (c ()) = .ok v →
          Pyinject.inject validate func [p] args kwargs
            = .ok (func args (kwargs ++ [(p.name, v)])))
      ∧ (∀ (R : Type) (func : List PyVal → List (String × PyVal) → R)
            (args : List PyVal) (errs : List String),
            validate ty (c ()) = .error errs →
          Pyinject.inject validate func [p] args kwargs
            = .error ⟨ty, c (), p.name, errs.getLast?⟩) := by
  intro τ validate p rest kwargs c ty hdef hhint hk
  refine ⟨fun v hv => ?_, fun errs he => ?_,
    fun R func args v hv => ?_, fun R func args errs he => ?_⟩
  · simp [Pyinject.injectLoop, hdef, hhint, hk, Pyinject.is_injector,
      Pyinject.runtime_cast, hv]
  · simp [Pyinject.injectLoop, hdef, hhint, hk, Pyinject.is_injector,
      Pyinject.runtime_cast, he]
  · simp [Pyinject.inject, Pyinject.injectLoop, hdef, hhint, hk,
      Pyinject.is_injector, Pyinject.runtime_cast, hv]
  · simp [Pyinject.inject, Pyinject.injectLoop, hdef, hhint, hk,
      Pyinject.is_injector, Pyinject.runtime_cast, he]

/-- Witness for C6 at concrete inputs: a validator that accepts ints and
rejects anything else converts an injected int and aborts on an injected
string with the error record filled in. -/
theorem pyinject_type_coercion_witness :
    Pyinject.injectLoop
        (fun (_ : Unit) v => match v with
          | .pyInt n => .ok (.pyInt n)
          | _ => .error ["not an int"])
        [⟨"x", some (), .injectorDefault (fun _ => .pyInt 5)⟩] []
      = .ok [("x", .pyInt 5)]
    ∧ Pyinject.injectLoop
        (fun (_ : Unit) v => match v with
          | .pyInt n => .ok (.pyInt n)
          | _ => .error ["not an int"])
        [⟨"y", some (), .injectorDefault (fun _ => .pyStr "a")⟩] []
      = .error ⟨(), .pyStr "a", "y", some "not an int"⟩ :=
  ⟨(pyinject_type_coercion Unit
      (fun _ v => match v with
        | .pyInt n => .ok (.pyInt n)
        | _ => .error ["not an int"])
      ⟨"x", some (), .injectorDefault (fun _ => .pyInt 5)⟩ [] []
      (fun _ => .pyInt 5) () rfl rfl rfl).1 (.pyInt 5) rfl,
   (pyinject_type_coercion Unit
      (fun _ v => match v with
        | .pyInt n => .ok (.pyInt n)
        | _ => .error ["not an int"])
      ⟨"y", some (), .injectorDefault (fun _ => .pyStr "a")⟩ [] []
      (fun _ => .pyStr "a") () rfl rfl rfl).2.1 ["not an int"] rfl⟩

/-- C10: a parameter whose default is an injector but which the caller
supplies as a keyword argument is skipped entirely: the loop step is
independent of the injector and of the validator, and the binding the
caller supplied reaches the function unchanged. -/
theorem pyinject_kwarg_override :
    (∀ (τ : Type) (validate : τ → PyVal → Except (List String) PyVal)
        (p : Pyinject.Param τ) (rest : List (Pyinject.Param τ))
        (kwargs : List (String × PyVal)),
        Pyinject.hasKey kwargs p.name = true →
        Pyinject.injectLoop validate (p :: rest) kwargs
          = Pyinject.injectLoop validate rest kwargs)
    ∧ (∀ (τ : Type) (validate : τ → PyVal → Except (List String) PyVal)
        (params : List (Pyinject.Param τ))
        (kwargs kw2 : List (String × PyVal)) (name : String),
        Pyinject.hasKey kwargs name = true →
        Pyinject.injectLoop validate params kwargs = .ok kw2 →
        Pyinject.lookupKw kw2 name = Pyinject.lookupKw kwargs name) := by
  constructor
  · intro τ validate p rest kwargs hk
    simp [Pyinject.injectLoop, hk]
  · intro τ validate params kwargs kw2 name hk h
    exact injectLoop_keeps_present_keys validate name params kwargs kw2 hk h

/-- Witness for C10 at concrete inputs: a caller-supplied keyword binding
suppresses its injector, and its binding is unchanged after another
parameter is resolved by injection. -/
theorem pyinject_kwarg_override_witness :
    Pyinject.injectLoop (fun (_ : Unit) v => .ok v)
        [⟨"x", some (), .injectorDefault (fun _ => .pyInt 99)⟩]
        [("x", .pyStr "keep")]
      = .ok [("x", .pyStr "keep")]
    ∧ Pyinject.lookupKw [("x", .pyStr "keep"), ("y", .pyInt 99)] "x"
      = Pyinject.lookupKw [("x", .pyStr "keep")] "x" :=
  ⟨pyinject_kwarg_override.1 Unit (fun _ v => .ok v)
      ⟨"x", some (), .injectorDefault (fun _ => .pyInt 99)⟩ []
      [("x", .pyStr "keep")] (by simp [Pyinject.hasKey]),
   pyinject_kwarg_override.2 Unit (fun _ v => .ok v)
      [⟨"y", none, .injectorDefault (fun _ => .pyInt 99)⟩]
      [("x", .pyStr "keep")] [("x", .pyStr "keep"), ("y", .pyInt 99)] "x"
      (by simp [Pyinject.hasKey])
      (by simp [Pyinject.injectLoop, Pyinject.hasKey, Pyinject.is_injector])⟩
